import Mathlib

/-!
Verification of the gateway supervisor / reverse-proxy / admin-console wrapper
(`src/server.js`).  Text is modelled as `List Char` (JS strings restricted to
their code points); fallible JS values as `Option`; the Node event loop as an
explicit small-step relation on a state record, with atomic steps exactly at
the synchronous blocks between `await` points of the source.
-/

namespace Wrapper

/-- JS strings are modelled as lists of characters. -/
abbrev Text := List Char

/-- Coerce a Lean string literal to the `Text` model. -/
def str (s : String) : Text := s.data

/-- Whitespace for `String.prototype.trim` (ASCII subset used by the wrapper). -/
def jsIsSpace (c : Char) : Bool := c = ' ' || c = '\t' || c = '\n' || c = '\r'

/-- `String.prototype.trim()`: strip whitespace from both ends. -/
def jsTrim (t : Text) : Text :=
  ((t.dropWhile jsIsSpace).reverse.dropWhile jsIsSpace).reverse

/-- `needle` occurs at the start of `hay`. -/
def isSubAt : Text → Text → Bool
  | [], _ => true
  | _ :: _, [] => false
  | a :: as, b :: bs => a = b && isSubAt as bs

/-- `needle` occurs somewhere inside `hay` (substring containment). -/
def containsSub (needle : Text) : Text → Bool
  | [] => needle.isEmpty
  | b :: bs => isSubAt needle (b :: bs) || containsSub needle bs

/-- `String.prototype.split(sep)` for a one-character separator. -/
def splitOnChar (sep : Char) : Text → List Text
  | [] => [[]]
  | c :: rest =>
    match splitOnChar sep rest with
    | [] => if c = sep then [[], []] else [[c]]
    | s :: ss => if c = sep then [] :: s :: ss else (c :: s) :: ss

/-- Decimal digits of a numeral, most significant first. -/
def digitsToNat (ds : Text) : Nat :=
  ds.foldl (fun a c => a * 10 + (c.toNat - '0'.toNat)) 0

/-- `Number.parseInt(s, 10)`: optional sign then a digit run; `none` is `NaN`. -/
def jsParseInt (t : Text) : Option Int :=
  let t1 := t.dropWhile jsIsSpace
  let p : Int × Text :=
    match t1 with
    | '-' :: r => (-1, r)
    | '+' :: r => (1, r)
    | _ => (1, t1)
  let ds := p.2.takeWhile Char.isDigit
  if ds.isEmpty then none else some (p.1 * (digitsToNat ds : Int))

/-- Decimal rendering of a natural number. -/
def natText (n : Nat) : Text := (Nat.repr n).data

/-- Decimal rendering of an integer (`String(n)` in JS). -/
def intText (i : Int) : Text := (toString i).data

/-- Character class `[A-Za-z0-9_-]` used by the redaction and id patterns. -/
def isAlnumUD (c : Char) : Bool := c.isAlpha || c.isDigit || c = '_' || c = '-'

/-- Character class `[A-Za-z0-9_]` (the `gho_` redaction pattern). -/
def isAlnumU (c : Char) : Bool := c.isAlpha || c.isDigit || c = '_'

/-- Character class `[A-Za-z0-9-]` (the `xox` redaction pattern). -/
def isAlnumD (c : Char) : Bool := c.isAlpha || c.isDigit || c = '-'

/-- Regex `\S`: any non-whitespace character. -/
def isNonSpace (c : Char) : Bool := !jsIsSpace c

/-- Length of the maximal prefix run of characters satisfying `p`. -/
def runLen (p : Char → Bool) : Text → Nat
  | [] => 0
  | c :: r => if p c then runLen p r + 1 else 0

/-- Match length of `/sk-[A-Za-z0-9_-]{10,}/` at the head of `t` (greedy). -/
def matchSk (t : Text) : Option Nat :=
  if t.take 3 = str "sk-" then
    let n := runLen isAlnumUD (t.drop 3)
    if 10 ≤ n then some (3 + n) else none
  else none

/-- Match length of `/gho_[A-Za-z0-9_]{10,}/` at the head of `t`. -/
def matchGho (t : Text) : Option Nat :=
  if t.take 4 = str "gho_" then
    let n := runLen isAlnumU (t.drop 4)
    if 10 ≤ n then some (4 + n) else none
  else none

/-- Match length of `/xox[baprs]-[A-Za-z0-9-]{10,}/` at the head of `t`. -/
def matchXox (t : Text) : Option Nat :=
  if t.take 3 = str "xox" then
    match (t.drop 3).head? with
    | some c =>
      if c = 'b' || c = 'a' || c = 'p' || c = 'r' || c = 's' then
        if (t.drop 4).head? = some '-' then
          let n := runLen isAlnumD (t.drop 5)
          if 10 ≤ n then some (5 + n) else none
        else none
      else none
    | none => none
  else none

/-- Match length of `/\d{5,}:[A-Za-z0-9_-]{10,}/` (Telegram token) at the head. -/
def matchTg (t : Text) : Option Nat :=
  let d := runLen Char.isDigit t
  if 5 ≤ d then
    if (t.drop d).head? = some ':' then
      let n := runLen isAlnumUD (t.drop (d + 1))
      if 10 ≤ n then some (d + 1 + n) else none
    else none
  else none

/-- Match length of `/AA[A-Za-z0-9_-]{10,}:\S{10,}/` at the head of `t`. -/
def matchAA (t : Text) : Option Nat :=
  if t.take 2 = str "AA" then
    let n := runLen isAlnumUD (t.drop 2)
    if 10 ≤ n then
      if (t.drop (2 + n)).head? = some ':' then
        let m := runLen isNonSpace (t.drop (3 + n))
        if 10 ≤ m then some (2 + n + 1 + m) else none
      else none
    else none
  else none

/-- One global-replace pass: wherever the matcher fires, emit `[REDACTED]` and
skip the matched span, scanning left to right (fuel-indexed for structural
recursion; fuel `≥` length always suffices, and exhausted fuel is the
identity, which is only reachable past the end of the text). -/
def scanReplF (m : Text → Option Nat) : Nat → Text → Text
  | _, [] => []
  | 0, t => t
  | fuel + 1, c :: rest =>
    match m (c :: rest) with
    | some n => str "[REDACTED]" ++ scanReplF m fuel (rest.drop (n - 1))
    | none => c :: scanReplF m fuel rest

/-- One `String.prototype.replace(/pat/g, "[REDACTED]")` pass. -/
def scanRepl (m : Text → Option Nat) (t : Text) : Text := scanReplF m t.length t

/-- `redactSecrets` from `server.js`: the five chained global replaces. -/
def redactSecrets (t : Text) : Text :=
  scanRepl matchAA (scanRepl matchTg (scanRepl matchXox
    (scanRepl matchGho (scanRepl matchSk t))))

/-- Windows drive qualifier test `/^[A-Za-z]:[\\/]/`. -/
def hasDriveQual : Text → Bool
  | a :: b :: c :: _ => a.isAlpha && b = ':' && (c = '/' || c = '\\')
  | _ => false

/-- `looksSafeTarPath` from `server.js`: the archive-entry path filter. -/
def looksSafeTarPath (p : Text) : Bool :=
  if p.isEmpty then false
  else if isSubAt (str "/") p || isSubAt (str "\\") p then false
  else if hasDriveQual p then false
  else if (splitOnChar '/' p).any (fun seg => seg = str "..") then false
  else true

/-- Modelled from the spec: an archive entry path is unsafe when it is
absolute (begins with `/` or `\`), carries a Windows drive-letter prefix,
or contains a `..` path segment (tar paths use `/` separators). -/
def specUnsafePath (p : Text) : Bool :=
  isSubAt (str "/") p || isSubAt (str "\\") p || hasDriveQual p ||
    (splitOnChar '/' p).any (fun seg => seg = str "..")

/-- The `tar.x` filter of `/setup/import`: only entries passing
`looksSafeTarPath` survive to be written. -/
def importKeptEntries (entries : List Text) : List Text :=
  entries.filter looksSafeTarPath

/-- POSIX resolution of the relative segments of an entry against a directory
stack (deepest component first): empty and `.` segments are skipped, `..`
pops, anything else pushes. -/
def resolveSegs : List Text → List Text → List Text
  | stack, [] => stack
  | stack, seg :: rest =>
    if seg.isEmpty || seg = str "." then resolveSegs stack rest
    else if seg = str ".." then resolveSegs (stack.drop 1) rest
    else resolveSegs (seg :: stack) rest

/-- Result of one external command run (`runCmd` resolution value). -/
structure CmdResult where
  code : Int
  output : Text
deriving DecidableEq, Repr

/-- Environment oracle giving the result of each external command spawn,
keyed by its argv. -/
abbrev Oracle := List Text → CmdResult

/-- `OPENCLAW_ENTRY` default: the CLI entry script run by every helper. -/
def entryPath : Text := str "/openclaw/dist/entry.js"

/-- `clawArgs` from `server.js`: prepend the CLI entry to the argument list. -/
def clawArgs (args : List Text) : List Text := entryPath :: args

/-- A JSON response of the admin endpoints: HTTP status plus the `ok`,
`output` and `error` fields. -/
structure ConsoleResp where
  status : Nat
  ok : Bool
  output : Option Text
  errMsg : Option Text
deriving DecidableEq, Repr

/-- Outcome of `ensureGatewayRunning()` as seen by an awaiting caller. -/
inductive EnsureRes where
  | resolvedOk
  | notConfigured (reason : Text)
  | threw (msg : Text)
deriving DecidableEq, Repr

/-- `ALLOWED_CONSOLE_COMMANDS` from `server.js` (the `Set` literal). -/
def allowedConsoleCommands : List Text :=
  [str "gateway.restart", str "gateway.stop", str "gateway.start",
   str "openclaw.version", str "openclaw.status", str "openclaw.health",
   str "openclaw.doctor", str "openclaw.logs.tail", str "openclaw.config.get",
   str "openclaw.devices.list", str "openclaw.devices.approve",
   str "openclaw.plugins.list", str "openclaw.plugins.enable"]

/-- `ALLOWED_CONSOLE_COMMANDS.has(cmd)`. -/
def allowedConsole (cmd : Text) : Bool :=
  allowedConsoleCommands.any (fun c => decide (c = cmd))

/-- Tail-line clamp of the `openclaw.logs.tail` branch:
`Math.max(50, Math.min(1000, Number.parseInt(arg || "200", 10) || 200))`
(`|| 200` replaces both `NaN` and `0`). -/
def tailLineCount (arg : Text) : Int :=
  let parsed := jsParseInt (if arg.isEmpty then str "200" else arg)
  let n : Int :=
    match parsed with
    | none => 200
    | some v => if v = 0 then 200 else v
  max 50 (min 1000 n)

/-- The validation regex `/^[A-Za-z0-9_-]+$/` used for device request ids and
plugin names. -/
def idPatternOk (t : Text) : Bool := !t.isEmpty && t.all isAlnumUD

/-- An `openclaw` CLI console branch: spawn via `runCmd`, report `ok` on exit
code 0, redact the combined output. -/
def simpleClaw (o : Oracle) (args : List Text) : ConsoleResp × List (List Text) :=
  let argv := clawArgs args
  let r := o argv
  (⟨if r.code = 0 then 200 else 500, decide (r.code = 0),
    some (redactSecrets r.output), none⟩, [argv])

/-- Body of `POST /setup/api/console/run` after `cmd`/`arg` trimming: the
allowlist gate, the three wrapper-lifecycle branches, and the `openclaw` CLI
branches.  The second component lists every argv handed to `runCmd`. -/
def consoleRunT (o : Oracle) (er : EnsureRes) (cmd arg : Text) :
    ConsoleResp × List (List Text) :=
  if !allowedConsole cmd then
    (⟨400, false, none, some (str "Command not allowed")⟩, [])
  else if cmd = str "gateway.restart" then
    match er with
    | .threw e => (⟨500, false, none, some e⟩, [])
    | _ => (⟨200, true, some (str "Gateway restarted (wrapper-managed).\n"), none⟩, [])
  else if cmd = str "gateway.stop" then
    (⟨200, true, some (str "Gateway stopped (wrapper-managed).\n"), none⟩, [])
  else if cmd = str "gateway.start" then
    match er with
    | .threw e => (⟨500, false, none, some e⟩, [])
    | .resolvedOk => (⟨200, true, some (str "Gateway started.\n"), none⟩, [])
    | .notConfigured r =>
      (⟨200, false, some (str "Gateway not started: " ++ r ++ str "\n"), none⟩, [])
  else if cmd = str "openclaw.version" then simpleClaw o [str "--version"]
  else if cmd = str "openclaw.status" then simpleClaw o [str "status"]
  else if cmd = str "openclaw.health" then simpleClaw o [str "health"]
  else if cmd = str "openclaw.doctor" then simpleClaw o [str "doctor"]
  else if cmd = str "openclaw.logs.tail" then
    simpleClaw o [str "logs", str "--tail", intText (tailLineCount arg)]
  else if cmd = str "openclaw.config.get" then
    if arg.isEmpty then (⟨400, false, none, some (str "Missing config path")⟩, [])
    else simpleClaw o [str "config", str "get", arg]
  else if cmd = str "openclaw.devices.list" then simpleClaw o [str "devices", str "list"]
  else if cmd = str "openclaw.devices.approve" then
    if arg.isEmpty then (⟨400, false, none, some (str "Missing device request ID")⟩, [])
    else if !idPatternOk arg then
      (⟨400, false, none, some (str "Invalid device request ID")⟩, [])
    else simpleClaw o [str "devices", str "approve", arg]
  else if cmd = str "openclaw.plugins.list" then simpleClaw o [str "plugins", str "list"]
  else if cmd = str "openclaw.plugins.enable" then
    if arg.isEmpty then (⟨400, false, none, some (str "Missing plugin name")⟩, [])
    else if !idPatternOk arg then
      (⟨400, false, none, some (str "Invalid plugin name")⟩, [])
    else simpleClaw o [str "plugins", str "enable", arg]
  else (⟨400, false, none, some (str "Unhandled command")⟩, [])

/-- `POST /setup/api/console/run`: trims the payload fields, then dispatches. -/
def consoleRun (o : Oracle) (er : EnsureRes) (cmdRaw argRaw : Text) :
    ConsoleResp × List (List Text) :=
  consoleRunT o er (jsTrim cmdRaw) (jsTrim argRaw)

/-- `POST /setup/api/pairing/approve`: falsy channel/code are rejected,
otherwise `openclaw pairing approve <channel> <code>` is run and the raw
(unredacted) combined output is returned. -/
def pairingApprove (o : Oracle) (channel code : Option Text) :
    ConsoleResp × List (List Text) :=
  if (channel.getD []).isEmpty || (code.getD []).isEmpty then
    (⟨400, false, none, some (str "Missing channel or code")⟩, [])
  else
    let argv := clawArgs [str "pairing", str "approve", channel.getD [], code.getD []]
    let r := o argv
    (⟨if r.code = 0 then 200 else 500, decide (r.code = 0), some r.output, none⟩, [argv])

/-- `lastDoctorOutput` truncation marker appended by `runDoctorBestEffort`. -/
def truncatedMarker : Text := str "\n... (truncated)\n"

/-- Truncation step of `runDoctorBestEffort`:
`out.length > 50_000 ? out.slice(0, 50_000) + "\n... (truncated)\n" : out`. -/
def doctorStore (out : Text) : Text :=
  if 50000 < out.length then out.take 50000 ++ truncatedMarker else out

/-- The value stored in `lastDoctorOutput` for a raw doctor output. -/
def runDoctorStored (raw : Text) : Text := doctorStore (redactSecrets raw)

/-- A middleware decision: a terminal response (the guarded handler never
runs), a challenge response, or fall-through to the handler. -/
inductive AuthDecision where
  | deny (status : Nat) (body : Text)
  | denyWithChallenge (status : Nat) (body : Text)
  | allow
deriving DecidableEq, Repr

/-- `SETUP_PASSWORD = process.env.SETUP_PASSWORD?.trim()`. -/
def resolveSetupPassword (env : Option Text) : Option Text := env.map jsTrim

/-- Index of the first `:` dropped together with everything before it;
the whole text consumed yields `""` (JS `indexOf < 0` branch). -/
def afterColon : Text → Text
  | [] => []
  | c :: rest => if c = ':' then rest else afterColon rest

/-- `requireSetupAuth` from `server.js`.  `decode` stands for
`Buffer.from(encoded, "base64").toString("utf8")`. -/
def requireSetupAuth (decode : Text → Text) (setupPassword : Option Text)
    (authHeader : Option Text) : AuthDecision :=
  if (setupPassword.getD []).isEmpty then
    .deny 500 (str "SETUP_PASSWORD is not set. Set it in Railway Variables before using /setup.")
  else
    let parts := splitOnChar ' ' (authHeader.getD [])
    let scheme := parts.headD []
    let encoded := (parts.drop 1).headD []
    if !(scheme = str "Basic" : Bool) || encoded.isEmpty then
      .denyWithChallenge 401 (str "Auth required")
    else
      let decoded := decode encoded
      let password := afterColon decoded
      if some password ≠ setupPassword then
        .denyWithChallenge 401 (str "Invalid password")
      else .allow

/-- `attachGatewayAuthHeader`: inject the bearer token when the inbound
authorization header is falsy (absent or empty) and a token exists. -/
def attachGatewayAuthHeader (token : Text) (auth : Option Text) : Option Text :=
  if (auth.getD []).isEmpty && !token.isEmpty then
    some (str "Bearer " ++ token)
  else auth

/-- Response of the catch-all HTTP middleware. -/
inductive HttpAction where
  | redirect (loc : Text)
  | respond (status : Nat) (body : Text)
  | proxyForward
deriving DecidableEq, Repr

/-- Response on the WebSocket upgrade path.  `redirectWs` is modelled from
the spec only (answering the upgrade with a redirect to the setup surface);
the source never produces it. -/
inductive WsAction where
  | destroySocket
  | proxyUpgrade
  | redirectWs (loc : Text)
deriving DecidableEq, Repr

/-- A handler decision paired with whether `ensureGatewayRunning` was
awaited before it. -/
structure Handled (α : Type) where
  act : α
  ensureCalled : Bool
deriving DecidableEq, Repr

/-- The 503 hint built by the catch-all middleware on a start failure
(`join("\n")` of the hint lines). -/
def notReadyHint (err : Text) (lastErr : Option Text) : Text :=
  str "Gateway not ready.\n" ++ err ++
    (match lastErr with
     | some l => str "\n\n" ++ l
     | none => str "\n") ++
    str "\n\nTroubleshooting:\n- Visit /setup and check the Debug Console\n- Visit /setup/api/debug for config + gateway diagnostics"

/-- The catch-all proxy middleware (`app.use` at the end of `server.js`):
redirect to `/setup` when unconfigured on a non-setup path, otherwise await
`ensureGatewayRunning` when configured (503 with a hint on failure) and
forward through the proxy.  `ensureThrown` is the error the await raised,
if any. -/
def fallbackMiddleware (configured : Bool) (path : Text)
    (ensureThrown : Option Text) (lastErr : Option Text) : Handled HttpAction :=
  if !configured && !isSubAt (str "/setup") path then
    ⟨.redirect (str "/setup"), false⟩
  else if configured then
    match ensureThrown with
    | some e => ⟨.respond 503 (notReadyHint e lastErr), true⟩
    | none => ⟨.proxyForward, true⟩
  else ⟨.proxyForward, false⟩

/-- The `server.on("upgrade")` handler: destroy the socket when unconfigured
or when `ensureGatewayRunning` rejects, otherwise proxy the upgrade. -/
def upgradeHandler (configured : Bool) (ensureThrown : Option Text) :
    Handled WsAction :=
  if !configured then ⟨.destroySocket, false⟩
  else
    match ensureThrown with
    | some _ => ⟨.destroySocket, true⟩
    | none => ⟨.proxyUpgrade, true⟩

/-- State of one `runCmd` invocation: accumulated combined output, the
resolve-once promise value, whether the main and grace timers are still
armed, and which signals have been sent. -/
structure RunSt where
  out : Text
  res : Option CmdResult
  timerActive : Bool
  killArmed : Bool
  termSent : Bool
  killSent : Bool
deriving DecidableEq, Repr

/-- Events delivered to a `runCmd` invocation by the event loop: an output
chunk, the main timeout firing, the 2-second grace timer firing, the child's
`close`, or its `error`. -/
inductive REv where
  | dataEv (chunk : Text)
  | timerFire
  | killFire
  | closeEv (code : Int)
  | errorEv (msg : Text)
deriving DecidableEq, Repr

/-- The sentinel line appended on timeout. -/
def timeoutMarker (timeoutMs : Nat) : Text :=
  str "\n[timeout] Command exceeded " ++ natText timeoutMs ++ str "ms and was terminated.\n"

/-- Fresh `runCmd` state (main timer armed at spawn). -/
def runInit : RunSt := ⟨[], none, true, false, false, false⟩

/-- One `runCmd` event, exactly as the handlers in `server.js` behave: the
timeout handler sends SIGTERM, arms the 2s SIGKILL timer, appends the
sentinel line and resolves with code 124; `close`/`error` clear both timers
and resolve (a promise resolves at most once); the grace timer, when still
armed, sends SIGKILL. -/
def rstep (tm : Nat) (s : RunSt) : REv → RunSt
  | .dataEv d => { s with out := s.out ++ d }
  | .timerFire =>
    if s.timerActive then
      let out2 := s.out ++ timeoutMarker tm
      { s with timerActive := false, termSent := true, killArmed := true,
               out := out2,
               res := match s.res with | none => some ⟨124, out2⟩ | r => r }
    else s
  | .killFire =>
    if s.killArmed then { s with killArmed := false, killSent := true } else s
  | .closeEv c =>
    { s with timerActive := false, killArmed := false,
             res := match s.res with | none => some ⟨c, s.out⟩ | r => r }
  | .errorEv m =>
    let out2 := s.out ++ str "\n[spawn error] " ++ m ++ str "\n"
    { s with timerActive := false, killArmed := false, out := out2,
             res := match s.res with | none => some ⟨127, out2⟩ | r => r }

/-- Run a `runCmd` invocation through a sequence of events. -/
def rexec (tm : Nat) (evs : List REv) (s : RunSt) : RunSt := evs.foldl (rstep tm) s

/-- Events that occur while the command simply keeps running: output chunks
(and a stray grace-timer fire, which is unarmed before the timeout). -/
def quietEv : REv → Bool
  | .dataEv _ => true
  | .killFire => true
  | _ => false

/-- Events that are not the child's `close`/`error`. -/
def notCloseErr : REv → Bool
  | .closeEv _ => false
  | .errorEv _ => false
  | _ => true

/-- Outcome of one `ensureGatewayRunning()` call in the gateway model. -/
inductive GOutcome where
  | okImmediate
  | notConfigured
  | fromAttempt (attempt : Nat) (success : Bool)
deriving DecidableEq, Repr

/-- Phase of one `ensureGatewayRunning()` caller: not yet entered, suspended
on the in-flight start attempt, or returned. -/
inductive GPhase where
  | ready
  | waiting (attempt : Nat)
  | finished (o : GOutcome)
deriving DecidableEq, Repr

/-- The JS-visible result of a finished call: `true` for a resolved
`{ ok: true }`, `false` for `{ ok: false }` or a rejection. -/
def successObs : GOutcome → Bool
  | .okImmediate => true
  | .notConfigured => false
  | .fromAttempt _ b => b

/-- The wrapper's module-level gateway state plus the set of concurrent
`ensureGatewayRunning()` callers.  `proc`/`starting` mirror
`gatewayProc`/`gatewayStarting` (attempt ids stand for the promise object
identities); `attempts` counts spawns, `resolved` records settled attempts. -/
structure GwSys where
  configured : Bool
  proc : Option Nat
  starting : Option Nat
  attempts : Nat
  resolved : List (Nat × Bool)
  callers : List GPhase
deriving DecidableEq, Repr

/-- Event-loop events of the gateway model: a caller's synchronous entry
block, an attempt settling (readiness success, or timeout/spawn failure),
a suspended caller resuming, and the child process's `exit`/`error`
callback clearing `gatewayProc`. -/
inductive GEv where
  | entry (i : Nat)
  | resolveAttempt (a : Nat) (success : Bool)
  | wake (i : Nat)
  | procExit
deriving DecidableEq, Repr

/-- Lookup of a settled attempt's outcome. -/
def lookupRes (a : Nat) : List (Nat × Bool) → Option Bool
  | [] => none
  | (x, b) :: r => if x = a then some b else lookupRes a r

/-- One atomic step of the gateway model.  `entry i` is the synchronous
prefix of `ensureGatewayRunning()` up to its suspension: the `isConfigured`
check, the `gatewayProc` fast path, attaching to a pending `gatewayStarting`,
or creating the attempt — which synchronously runs `startGateway` through
`childProcess.spawn`, setting `gatewayProc`, before suspending.
`resolveAttempt` is the attempt's async tail settling: `finally` clears
`gatewayStarting`; a readiness failure leaves `gatewayProc` untouched.
`wake i` resumes a suspended caller once its attempt has settled. -/
def gstep (s : GwSys) : GEv → GwSys
  | .entry i =>
    match s.callers[i]? with
    | some .ready =>
      if !s.configured then
        { s with callers := s.callers.set i (.finished .notConfigured) }
      else if s.proc.isSome then
        { s with callers := s.callers.set i (.finished .okImmediate) }
      else
        match s.starting with
        | some a => { s with callers := s.callers.set i (.waiting a) }
        | none =>
          let a := s.attempts
          { s with proc := some a, starting := some a, attempts := a + 1,
                   callers := s.callers.set i (.waiting a) }
    | _ => s
  | .resolveAttempt a b =>
    if s.starting = some a then
      { s with starting := none, resolved := (a, b) :: s.resolved }
    else s
  | .wake i =>
    match s.callers[i]? with
    | some (.waiting a) =>
      match lookupRes a s.resolved with
      | some b => { s with callers := s.callers.set i (.finished (.fromAttempt a b)) }
      | none => s
    | _ => s
  | .procExit => { s with proc := none }

/-- Run the gateway model through a sequence of event-loop events. -/
def gexec (evs : List GEv) (s : GwSys) : GwSys := evs.foldl gstep s

/-- Initial state for the concurrency scenario: configured, gateway stopped,
no attempt in flight, `n` callers about to call `ensureGatewayRunning()`. -/
def gwInit (n : Nat) : GwSys := ⟨true, none, none, 0, [], List.replicate n .ready⟩

/-- Recognizer for caller-entry events. -/
def isEntryEv : GEv → Bool
  | .entry _ => true
  | _ => false

/-- A run of `n` letters `a` (a secret-free command output of length `n`). -/
def aRun (n : Nat) : Text := List.replicate n 'a'

/-- Caller phases reachable while the concurrent burst of entries runs:
untouched, suspended on attempt 0, or already returned `{ ok: true }` off the
live-process fast path. -/
def APhase (p : GPhase) : Prop :=
  p = .ready ∨ p = .waiting 0 ∨ p = .finished .okImmediate

/-- Invariant after the first caller of a concurrent burst has entered:
attempt 0 was spawned and is in flight, and no further spawn can happen. -/
def AInv (s : GwSys) : Prop :=
  s.configured = true ∧ s.proc = some 0 ∧ s.starting = some 0 ∧ s.attempts = 1 ∧
    s.resolved = [] ∧ ∀ p ∈ s.callers, APhase p

/-- Caller phases reachable after the burst: as in `APhase`, or returned with
the recorded outcome of attempt 0. -/
def BPhase (res : List (Nat × Bool)) (p : GPhase) : Prop :=
  p = .ready ∨ p = .waiting 0 ∨ p = .finished .okImmediate ∨
    ∃ b, p = .finished (.fromAttempt 0 b) ∧ res = [(0, b)]

/-- Invariant over the post-burst events: exactly one spawn ever happened,
attempt 0 is either still pending or settled exactly once, and every caller
is in a `BPhase`. -/
def BInv (s : GwSys) : Prop :=
  s.attempts = 1 ∧
    ((s.starting = some 0 ∧ s.resolved = []) ∨
      (s.starting = none ∧ ∃ b, s.resolved = [(0, b)])) ∧
    ∀ p ∈ s.callers, BPhase s.resolved p

/-! ### General lemmas about the text utilities -/

theorem isSubAt_refl (t : Text) : isSubAt t t = true := by
  induction t with
  | nil => rfl
  | cons c cs ih => simp [isSubAt, ih]

theorem containsSub_append_self (a n : Text) : containsSub n (a ++ n) = true := by
  induction a with
  | nil =>
    cases n with
    | nil => rfl
    | cons c cs => simp [containsSub, isSubAt_refl]
  | cons c rest ih => simp [containsSub, ih]

theorem aRun_length (n : Nat) : (aRun n).length = n := by
  rw [aRun, List.length_replicate]

theorem matchSk_a (t : Text) : matchSk ('a' :: t) = none := by
  simp [matchSk, str]

theorem matchGho_a (t : Text) : matchGho ('a' :: t) = none := by
  simp [matchGho, str]

theorem matchXox_a (t : Text) : matchXox ('a' :: t) = none := by
  simp [matchXox, str]

theorem matchTg_a (t : Text) : matchTg ('a' :: t) = none := by
  simp [matchTg, runLen]

theorem matchAA_a (t : Text) : matchAA ('a' :: t) = none := by
  simp [matchAA, str]

theorem scanReplF_all_a (m : Text → Option Nat) (hm : ∀ t, m ('a' :: t) = none) :
    ∀ f n, scanReplF m f (aRun n) = aRun n := by
  intro f
  induction f with
  | zero =>
    intro n
    cases n with
    | zero => rfl
    | succ k => rfl
  | succ f ih =>
    intro n
    cases n with
    | zero => rfl
    | succ k =>
      rw [show aRun (k + 1) = 'a' :: aRun k from by simp [aRun, List.replicate_succ]]
      simp only [scanReplF, hm]
      rw [ih k]

theorem redact_aRun (n : Nat) : redactSecrets (aRun n) = aRun n := by
  unfold redactSecrets scanRepl
  rw [scanReplF_all_a matchSk matchSk_a, scanReplF_all_a matchGho matchGho_a,
    scanReplF_all_a matchXox matchXox_a, scanReplF_all_a matchTg matchTg_a,
    scanReplF_all_a matchAA matchAA_a]

theorem marker_not_in_aRun (n : Nat) : containsSub truncatedMarker (aRun n) = false := by
  induction n with
  | zero => rfl
  | succ k ih =>
    rw [show aRun (k + 1) = 'a' :: aRun k from by simp [aRun, List.replicate_succ]]
    simp only [containsSub]
    rw [ih, Bool.or_false]
    simp [truncatedMarker, str, isSubAt]

/-! ### Reduction of the console dispatcher at each fixed command -/

theorem consoleT_status (o : Oracle) (er : EnsureRes) (arg : Text) :
    consoleRunT o er (str "openclaw.status") arg = simpleClaw o [str "status"] := by
  unfold consoleRunT
  rw [if_neg (by decide), if_neg (by decide), if_neg (by decide), if_neg (by decide),
    if_neg (by decide), if_pos (by decide)]

theorem consoleT_logsTail (o : Oracle) (er : EnsureRes) (arg : Text) :
    consoleRunT o er (str "openclaw.logs.tail") arg =
      simpleClaw o [str "logs", str "--tail", intText (tailLineCount arg)] := by
  unfold consoleRunT
  rw [if_neg (by decide), if_neg (by decide), if_neg (by decide), if_neg (by decide),
    if_neg (by decide), if_neg (by decide), if_neg (by decide), if_neg (by decide),
    if_pos (by decide)]

theorem consoleT_configGet (o : Oracle) (er : EnsureRes) (arg : Text) :
    consoleRunT o er (str "openclaw.config.get") arg =
      (if arg.isEmpty then
        (⟨400, false, none, some (str "Missing config path")⟩, [])
      else simpleClaw o [str "config", str "get", arg]) := by
  unfold consoleRunT
  rw [if_neg (by decide), if_neg (by decide), if_neg (by decide), if_neg (by decide),
    if_neg (by decide), if_neg (by decide), if_neg (by decide), if_neg (by decide),
    if_neg (by decide), if_pos (by decide)]

theorem consoleT_devicesApprove (o : Oracle) (er : EnsureRes) (arg : Text) :
    consoleRunT o er (str "openclaw.devices.approve") arg =
      (if arg.isEmpty then
        (⟨400, false, none, some (str "Missing device request ID")⟩, [])
      else if !idPatternOk arg then
        (⟨400, false, none, some (str "Invalid device request ID")⟩, [])
      else simpleClaw o [str "devices", str "approve", arg]) := by
  unfold consoleRunT
  rw [if_neg (by decide), if_neg (by decide), if_neg (by decide), if_neg (by decide),
    if_neg (by decide), if_neg (by decide), if_neg (by decide), if_neg (by decide),
    if_neg (by decide), if_neg (by decide), if_neg (by decide), if_pos (by decide)]

theorem consoleT_pluginsEnable (o : Oracle) (er : EnsureRes) (arg : Text) :
    consoleRunT o er (str "openclaw.plugins.enable") arg =
      (if arg.isEmpty then
        (⟨400, false, none, some (str "Missing plugin name")⟩, [])
      else if !idPatternOk arg then
        (⟨400, false, none, some (str "Invalid plugin name")⟩, [])
      else simpleClaw o [str "plugins", str "enable", arg]) := by
  unfold consoleRunT
  rw [if_neg (by decide), if_neg (by decide), if_neg (by decide), if_neg (by decide),
    if_neg (by decide), if_neg (by decide), if_neg (by decide), if_neg (by decide),
    if_neg (by decide), if_neg (by decide), if_neg (by decide), if_neg (by decide),
    if_neg (by decide), if_pos (by decide)]

/-! ### Archive path safety (claim C2) -/

theorem resolveSegs_no_dotdot (segs : List Text)
    (h : ∀ seg ∈ segs, seg ≠ str "..") :
    ∀ stack : List Text, ∃ pre, resolveSegs stack segs = pre ++ stack := by
  induction segs with
  | nil => intro stack; exact ⟨[], rfl⟩
  | cons seg rest ih =>
    intro stack
    have hseg : seg ≠ str ".." := h seg (List.mem_cons_self _ _)
    have hrest : ∀ s ∈ rest, s ≠ str ".." := fun s hs => h s (List.mem_cons_of_mem _ hs)
    by_cases he : seg.isEmpty ∨ seg = str "."
    · have hstep : resolveSegs stack (seg :: rest) = resolveSegs stack rest := by
        simp only [resolveSegs]
        rcases he with he | he
        · simp [he]
        · simp [he]
      rw [hstep]
      exact ih hrest stack
    · push_neg at he
      have hstep : resolveSegs stack (seg :: rest) = resolveSegs (seg :: stack) rest := by
        simp only [resolveSegs]
        simp [he.1, he.2, hseg]
      rw [hstep]
      obtain ⟨pre, hp⟩ := ih hrest (seg :: stack)
      exact ⟨pre ++ [seg], by simp [hp]⟩

theorem looksSafe_no_dotdot (p : Text) (h : looksSafeTarPath p = true) :
    ∀ seg ∈ splitOnChar '/' p, seg ≠ str ".." := by
  intro seg hm heq
  have hany : (splitOnChar '/' p).any (fun s => decide (s = str "..")) = true :=
    List.any_eq_true.mpr ⟨seg, hm, by simp [heq]⟩
  have hf : looksSafeTarPath p = false := by
    simp [looksSafeTarPath, hany]
  rw [hf] at h
  exact Bool.false_ne_true h

theorem spec_unsafe_rejected (p : Text) (h : specUnsafePath p = true) :
    looksSafeTarPath p = false := by
  unfold specUnsafePath at h
  simp only [Bool.or_eq_true] at h
  rcases h with ((h | h) | h) | h
  · simp [looksSafeTarPath, h]
  · simp [looksSafeTarPath, h]
  · simp [looksSafeTarPath, h]
  · simp [looksSafeTarPath, h]

/-- Claim C2: every archive entry whose path is absolute, drive-qualified, or
contains a `..` segment fails `looksSafeTarPath`, is excluded by the import
filter before any write, and every entry the filter keeps resolves strictly
beneath the `/data` restore root. -/
theorem C2_import_path_safety :
    (∀ p : Text, specUnsafePath p = true → looksSafeTarPath p = false) ∧
    (∀ (entries : List Text) (p : Text), specUnsafePath p = true →
      p ∉ importKeptEntries entries) ∧
    (∀ p : Text, looksSafeTarPath p = true →
      ∃ pre, resolveSegs [str "data"] (splitOnChar '/' p) = pre ++ [str "data"]) := by
  refine ⟨spec_unsafe_rejected, ?_, ?_⟩
  · intro entries p hp hmem
    have hkeep := (List.mem_filter.mp hmem).2
    rw [spec_unsafe_rejected p hp] at hkeep
    exact Bool.false_ne_true hkeep
  · intro p hp
    exact resolveSegs_no_dotdot _ (looksSafe_no_dotdot p hp) _

theorem C2_import_path_safety_witness :
    looksSafeTarPath (str "../../etc/passwd") = false ∧
    (str "/etc/passwd") ∉ importKeptEntries [str "/etc/passwd", str "ok.txt"] ∧
    (∃ pre, resolveSegs [str "data"] (splitOnChar '/' (str ".openclaw/openclaw.json"))
      = pre ++ [str "data"]) :=
  ⟨C2_import_path_safety.1 _ (by decide),
   C2_import_path_safety.2.1 _ _ (by decide),
   C2_import_path_safety.2.2 _ (by decide)⟩

/-! ### Console allowlist (claim C3) -/

/-- Claim C3: a console request whose trimmed `cmd` is not in
`ALLOWED_CONSOLE_COMMANDS` is answered with HTTP 400 / `ok: false` and no
external process is spawned. -/
theorem C3_allowlist_closed :
    ∀ (o : Oracle) (er : EnsureRes) (cmdRaw argRaw : Text),
      allowedConsole (jsTrim cmdRaw) = false →
      consoleRun o er cmdRaw argRaw =
        (⟨400, false, none, some (str "Command not allowed")⟩, []) := by
  intro o er cmdRaw argRaw h
  unfold consoleRun consoleRunT
  simp [h]

theorem C3_allowlist_closed_witness :
    allowedConsole (jsTrim (str "bash -c id")) = false ∧
    consoleRun (fun _ => ⟨0, []⟩) .resolvedOk (str "bash -c id") (str "") =
      (⟨400, false, none, some (str "Command not allowed")⟩, []) :=
  ⟨by decide, C3_allowlist_closed _ _ _ _ (by decide)⟩

/-! ### Setup auth fails closed (claim C10) -/

/-- Claim C10: with `SETUP_PASSWORD` unset, every request to an endpoint
guarded by `requireSetupAuth` is answered with HTTP 500 and the fixed
message, whatever the authorization header and base64 decoding do; the
guarded handler never runs. -/
theorem C10_fail_closed :
    ∀ (decode : Text → Text) (hdr : Option Text),
      requireSetupAuth decode (resolveSetupPassword none) hdr =
        .deny 500 (str "SETUP_PASSWORD is not set. Set it in Railway Variables before using /setup.") := by
  intro decode hdr
  simp [requireSetupAuth, resolveSetupPassword]

/-! ### Console argument validation (claim C4) -/

/-- Claim C4 counterexample: the `openclaw.config.get` branch interpolates a
caller argument that matches neither the restrictive id pattern nor any
numeric clamp — `x.y;id` is handed verbatim to the spawned command line. -/
theorem C4_cex :
    (consoleRun (fun _ => ⟨0, []⟩) .resolvedOk (str "openclaw.config.get") (str "x.y;id")).2
      = [[entryPath, str "config", str "get", str "x.y;id"]] ∧
    idPatternOk (str "x.y;id") = false ∧
    jsParseInt (str "x.y;id") = none := by decide

/-- Claim C4 (amended): the tail-line count is clamped to `[50, 1000]` and is
the only caller datum in the `logs --tail` argv; device request ids and
plugin names are spawned only when they match `^[A-Za-z0-9_-]+$`; a config
path is checked only for non-emptiness and is interpolated verbatim. -/
theorem C4_argument_validation :
    (∀ arg : Text, 50 ≤ tailLineCount arg ∧ tailLineCount arg ≤ 1000) ∧
    (∀ (o : Oracle) (er : EnsureRes) (arg : Text),
      (consoleRunT o er (str "openclaw.logs.tail") arg).2 =
        [clawArgs [str "logs", str "--tail", intText (tailLineCount arg)]]) ∧
    (∀ (o : Oracle) (er : EnsureRes) (arg : Text) (argv : List Text),
      argv ∈ (consoleRunT o er (str "openclaw.devices.approve") arg).2 →
      idPatternOk arg = true ∧ argv = clawArgs [str "devices", str "approve", arg]) ∧
    (∀ (o : Oracle) (er : EnsureRes) (arg : Text) (argv : List Text),
      argv ∈ (consoleRunT o er (str "openclaw.plugins.enable") arg).2 →
      idPatternOk arg = true ∧ argv = clawArgs [str "plugins", str "enable", arg]) ∧
    (∀ (o : Oracle) (er : EnsureRes) (arg : Text), arg.isEmpty = false →
      (consoleRunT o er (str "openclaw.config.get") arg).2 =
        [clawArgs [str "config", str "get", arg]]) := by
  refine ⟨?_, ?_, ?_, ?_, ?_⟩
  · intro arg
    exact ⟨le_max_left _ _, max_le (by norm_num) (min_le_left _ _)⟩
  · intro o er arg
    rw [consoleT_logsTail]
    rfl
  · intro o er arg argv hmem
    rw [consoleT_devicesApprove] at hmem
    by_cases he : arg.isEmpty
    · rw [if_pos he] at hmem
      simp at hmem
    · rw [if_neg he] at hmem
      by_cases hid : idPatternOk arg
      · rw [if_neg (by simp [hid])] at hmem
        refine ⟨hid, ?_⟩
        simpa [simpleClaw] using hmem
      · rw [if_pos (by simp [Bool.eq_false_iff.mpr hid])] at hmem
        simp at hmem
  · intro o er arg argv hmem
    rw [consoleT_pluginsEnable] at hmem
    by_cases he : arg.isEmpty
    · rw [if_pos he] at hmem
      simp at hmem
    · rw [if_neg he] at hmem
      by_cases hid : idPatternOk arg
      · rw [if_neg (by simp [hid])] at hmem
        refine ⟨hid, ?_⟩
        simpa [simpleClaw] using hmem
      · rw [if_pos (by simp [Bool.eq_false_iff.mpr hid])] at hmem
        simp at hmem
  · intro o er arg h
    rw [consoleT_configGet, if_neg (by simp [h])]
    rfl

theorem C4_argument_validation_witness :
    (50 ≤ tailLineCount (str "7") ∧ tailLineCount (str "7") ≤ 1000) ∧
    (idPatternOk (str "req-01") = true ∧
      [entryPath, str "devices", str "approve", str "req-01"] =
        clawArgs [str "devices", str "approve", str "req-01"]) ∧
    (consoleRunT (fun _ => ⟨0, []⟩) .resolvedOk (str "openclaw.config.get")
        (str "channels.telegram")).2 =
      [clawArgs [str "config", str "get", str "channels.telegram"]] :=
  ⟨C4_argument_validation.1 (str "7"),
   C4_argument_validation.2.2.1 (fun _ => ⟨0, []⟩) .resolvedOk (str "req-01")
     [entryPath, str "devices", str "approve", str "req-01"] (by decide),
   C4_argument_validation.2.2.2.2 (fun _ => ⟨0, []⟩) .resolvedOk
     (str "channels.telegram") (by decide)⟩

/-! ### Secret redaction (claim C5) -/

/-- Claim C5 counterexample: `/setup/api/pairing/approve` returns the raw
command output without passing it through `redactSecrets`, so a
secret-shaped token (`matchSk` fires on it) leaves the process verbatim even
though `redactSecrets` would have replaced it. -/
theorem C5_cex :
    (pairingApprove (fun _ => ⟨0, str "token: sk-AAAAAAAAAA end"⟩)
        (some (str "telegram")) (some (str "ABC123"))).1.output
      = some (str "token: sk-AAAAAAAAAA end") ∧
    containsSub (str "sk-AAAAAAAAAA") (str "token: sk-AAAAAAAAAA end") = true ∧
    matchSk (str "sk-AAAAAAAAAA") = some 13 ∧
    redactSecrets (str "token: sk-AAAAAAAAAA end") = str "token: [REDACTED] end" := by
  decide

/-- Claim C5 (amended): every `openclaw` console branch returns
`redactSecrets` of the command output, and `redactSecrets` replaces a
secret-shaped token with `[REDACTED]`; the pairing-approve endpoint, by
contrast, returns the raw output unredacted. -/
theorem C5_redaction :
    (∀ (o : Oracle) (args : List Text),
      (simpleClaw o args).1.output = some (redactSecrets ((o (clawArgs args)).output))) ∧
    redactSecrets (str "code sk-AAAAAAAAAA ok") = str "code [REDACTED] ok" ∧
    (∀ (o : Oracle) (ch cd : Text), ch.isEmpty = false → cd.isEmpty = false →
      (pairingApprove o (some ch) (some cd)).1.output =
        some ((o (clawArgs [str "pairing", str "approve", ch, cd])).output)) := by
  refine ⟨fun o args => rfl, by decide, ?_⟩
  intro o ch cd h1 h2
  unfold pairingApprove
  rw [if_neg (by simp [h1, h2])]
  rfl

theorem C5_redaction_witness :
    (simpleClaw (fun _ => ⟨0, str "x"⟩) [str "status"]).1.output
      = some (redactSecrets (str "x")) ∧
    (pairingApprove (fun _ => ⟨0, str "raw"⟩) (some (str "tg")) (some (str "42"))).1.output
      = some (str "raw") :=
  ⟨C5_redaction.1 _ _,
   C5_redaction.2.2 (fun _ => ⟨0, str "raw"⟩) (str "tg") (str "42") (by decide) (by decide)⟩

/-! ### Output truncation (claim C9) -/

/-- Claim C9 counterexample: a console command whose captured output has
50001 characters is returned in full — unbounded and with no truncation
marker — because `runCmd` does not bound its capture and the console
branches do not truncate. -/
theorem C9_cex :
    (consoleRun (fun _ => ⟨0, aRun 50001⟩) .resolvedOk (str "openclaw.status") (str "")).1.output
      = some (aRun 50001) ∧
    50000 < (aRun 50001).length ∧
    containsSub truncatedMarker (aRun 50001) = false := by
  refine ⟨?_, by rw [aRun_length]; norm_num, marker_not_in_aRun 50001⟩
  unfold consoleRun
  rw [show jsTrim (str "openclaw.status") = str "openclaw.status" from by decide,
    consoleT_status]
  show some (redactSecrets (aRun 50001)) = some (aRun 50001)
  rw [redact_aRun]

/-- Claim C9 (amended): only the stored doctor diagnostic is truncated — at
the 50000-character ceiling, with the `... (truncated)` marker appended —
while console command outputs are returned whole at any length. -/
theorem C9_truncation :
    (∀ t : Text, (doctorStore t).length ≤ 50017) ∧
    (∀ t : Text, 50000 < t.length → ∃ p, doctorStore t = p ++ truncatedMarker) ∧
    (∀ n : Nat,
      (consoleRunT (fun _ => ⟨0, aRun n⟩) .resolvedOk (str "openclaw.status") []).1.output
        = some (aRun n)) := by
  refine ⟨?_, ?_, ?_⟩
  · intro t
    unfold doctorStore
    by_cases h : 50000 < t.length
    · rw [if_pos h, List.length_append, List.length_take,
        Nat.min_eq_left (le_of_lt h)]
      have hm : truncatedMarker.length = 17 := by decide
      rw [hm]
    · rw [if_neg h]
      omega
  · intro t h
    exact ⟨t.take 50000, by simp [doctorStore, h]⟩
  · intro n
    rw [consoleT_status]
    show some (redactSecrets (aRun n)) = some (aRun n)
    rw [redact_aRun]

theorem C9_truncation_witness :
    (doctorStore (aRun 50001)).length ≤ 50017 ∧
    (∃ p, doctorStore (aRun 50001) = p ++ truncatedMarker) :=
  ⟨C9_truncation.1 (aRun 50001),
   C9_truncation.2.1 (aRun 50001) (by rw [aRun_length]; norm_num)⟩

/-! ### Bearer-token injection (claim C7) -/

/-- Claim C7 counterexample: an inbound request that carries an (empty)
authorization header is not left unchanged — the falsy-header test also
fires on the empty string, so the header is overwritten with the bearer
token. -/
theorem C7_cex :
    attachGatewayAuthHeader (str "tok") (some []) = some (str "Bearer tok") ∧
    some ([] : Text) ≠ some (str "Bearer tok") := by decide

/-- Claim C7 (amended): the bearer token is injected exactly when the
inbound authorization header is absent or empty and the gateway token is
non-empty; a non-empty inbound header is left unchanged, and whenever the
header changes it becomes `Bearer <token>`. -/
theorem C7_auth_injection :
    ∀ (token : Text) (auth : Option Text),
      (attachGatewayAuthHeader token auth ≠ auth ↔
        ((auth = none ∨ auth = some []) ∧ token ≠ [])) ∧
      (∀ v : Text, v ≠ [] → attachGatewayAuthHeader token (some v) = some v) ∧
      (attachGatewayAuthHeader token auth ≠ auth →
        attachGatewayAuthHeader token auth = some (str "Bearer " ++ token)) := by
  intro token auth
  refine ⟨?_, ?_, ?_⟩
  · constructor
    · intro hne
      by_cases hc : (auth.getD []).isEmpty && !token.isEmpty
      · constructor
        · rcases auth with _ | v
          · exact Or.inl rfl
          · refine Or.inr ?_
            simp only [Bool.and_eq_true, List.isEmpty_iff, Option.getD_some] at hc
            simp [hc.1]
        · simp only [Bool.and_eq_true, Bool.not_eq_true', List.isEmpty_iff] at hc
          intro h0
          rw [h0] at hc
          simp at hc
      · exfalso
        apply hne
        unfold attachGatewayAuthHeader
        rw [if_neg (by simpa using hc)]
    · rintro ⟨h1, h2⟩
      have hc : ((auth.getD []).isEmpty && !token.isEmpty) = true := by
        rcases h1 with h1 | h1 <;> simp [h1, h2]
      unfold attachGatewayAuthHeader
      rw [if_pos hc]
      rcases h1 with h1 | h1
      · simp [h1]
      · rw [h1]
        simp [str]
  · intro v hv
    unfold attachGatewayAuthHeader
    rw [if_neg (by simp [hv])]
  · intro hne
    by_cases hc : ((auth.getD []).isEmpty && !token.isEmpty) = true
    · unfold attachGatewayAuthHeader
      rw [if_pos hc]
    · exfalso
      apply hne
      unfold attachGatewayAuthHeader
      rw [if_neg (by simpa using hc)]

theorem C7_auth_injection_witness :
    attachGatewayAuthHeader (str "tok") none = some (str "Bearer tok") ∧
    attachGatewayAuthHeader (str "tok") (some (str "Basic abc")) = some (str "Basic abc") :=
  ⟨(C7_auth_injection (str "tok") none).2.2 (by decide),
   (C7_auth_injection (str "tok") none).2.1 (str "Basic abc") (by decide)⟩

/-! ### Routing when unconfigured / configured (claim C6) -/

/-- Claim C6 counterexample: an unconfigured WebSocket upgrade is not
answered with a redirect to the setup surface — the handler destroys the
socket (for every destination path). -/
theorem C6_cex :
    (upgradeHandler false none).act = .destroySocket ∧
    (upgradeHandler false none).act ≠ .redirectWs (str "/setup") := by decide

/-- Claim C6 (amended): when unconfigured, every HTTP request outside
`/setup` is redirected to `/setup` without touching the gateway, while every
WebSocket upgrade has its socket destroyed; when configured, both paths
await `ensureGatewayRunning` before forwarding, the HTTP path degrading to a
503 hint and the upgrade path to a destroyed socket on failure. -/
theorem C6_routing :
    (∀ (path : Text) (e le : Option Text), isSubAt (str "/setup") path = false →
      fallbackMiddleware false path e le = ⟨.redirect (str "/setup"), false⟩) ∧
    (∀ (path : Text) (le : Option Text),
      fallbackMiddleware true path none le = ⟨.proxyForward, true⟩ ∧
      ∀ err, fallbackMiddleware true path (some err) le =
        ⟨.respond 503 (notReadyHint err le), true⟩) ∧
    (∀ e, upgradeHandler false e = ⟨.destroySocket, false⟩) ∧
    upgradeHandler true none = ⟨.proxyUpgrade, true⟩ ∧
    (∀ err, upgradeHandler true (some err) = ⟨.destroySocket, true⟩) := by
  refine ⟨?_, ?_, ?_, ?_, ?_⟩
  · intro path e le h
    simp [fallbackMiddleware, h]
  · intro path le
    exact ⟨by simp [fallbackMiddleware], fun err => by simp [fallbackMiddleware]⟩
  · intro e
    simp [upgradeHandler]
  · simp [upgradeHandler]
  · intro err
    simp [upgradeHandler]

theorem C6_routing_witness :
    fallbackMiddleware false (str "/chat") none none =
      ⟨.redirect (str "/setup"), false⟩ ∧
    fallbackMiddleware true (str "/chat") none none = ⟨.proxyForward, true⟩ :=
  ⟨C6_routing.1 (str "/chat") none none (by decide),
   (C6_routing.2.1 (str "/chat") none).1⟩

/-! ### Command timeout handling (claim C8) -/

theorem rexec_append (tm : Nat) (l1 l2 : List REv) (s : RunSt) :
    rexec tm (l1 ++ l2) s = rexec tm l2 (rexec tm l1 s) := by
  unfold rexec
  rw [List.foldl_append]

theorem rstep_res_frozen (tm : Nat) (s : RunSt) (e : REv) (r : CmdResult)
    (h : s.res = some r) : (rstep tm s e).res = some r := by
  cases e with
  | dataEv d => simpa [rstep] using h
  | timerFire =>
    by_cases ht : s.timerActive
    · simp [rstep, ht, h]
    · simpa [rstep, ht] using h
  | killFire =>
    by_cases hk : s.killArmed
    · simpa [rstep, hk] using h
    · simpa [rstep, hk] using h
  | closeEv c => simp [rstep, h]
  | errorEv m => simp [rstep, h]

theorem rexec_res_frozen (tm : Nat) (evs : List REv) (s : RunSt) (r : CmdResult)
    (h : s.res = some r) : (rexec tm evs s).res = some r := by
  induction evs generalizing s with
  | nil => exact h
  | cons e rest ih =>
    exact ih _ (rstep_res_frozen tm s e r h)

theorem rstep_termSent_mono (tm : Nat) (s : RunSt) (e : REv)
    (h : s.termSent = true) : (rstep tm s e).termSent = true := by
  cases e with
  | dataEv d => simpa [rstep] using h
  | timerFire =>
    by_cases ht : s.timerActive
    · simp [rstep, ht]
    · simpa [rstep, ht] using h
  | killFire =>
    by_cases hk : s.killArmed
    · simpa [rstep, hk] using h
    · simpa [rstep, hk] using h
  | closeEv c => simpa [rstep] using h
  | errorEv m => simpa [rstep] using h

theorem rexec_termSent_mono (tm : Nat) (evs : List REv) (s : RunSt)
    (h : s.termSent = true) : (rexec tm evs s).termSent = true := by
  induction evs generalizing s with
  | nil => exact h
  | cons e rest ih =>
    exact ih _ (rstep_termSent_mono tm s e h)

theorem rstep_killSent_mono (tm : Nat) (s : RunSt) (e : REv)
    (h : s.killSent = true) : (rstep tm s e).killSent = true := by
  cases e with
  | dataEv d => simpa [rstep] using h
  | timerFire =>
    by_cases ht : s.timerActive
    · simpa [rstep, ht] using h
    · simpa [rstep, ht] using h
  | killFire =>
    by_cases hk : s.killArmed
    · simp [rstep, hk]
    · simpa [rstep, hk] using h
  | closeEv c => simpa [rstep] using h
  | errorEv m => simpa [rstep] using h

theorem rexec_killSent_mono (tm : Nat) (evs : List REv) (s : RunSt)
    (h : s.killSent = true) : (rexec tm evs s).killSent = true := by
  induction evs generalizing s with
  | nil => exact h
  | cons e rest ih => exact ih _ (rstep_killSent_mono tm s e h)

theorem rexec_quiet (tm : Nat) (pre : List REv) (hq : ∀ e ∈ pre, quietEv e = true) :
    ∀ s : RunSt, s.res = none → s.timerActive = true → s.killArmed = false →
      s.termSent = false → s.killSent = false →
      (rexec tm pre s).res = none ∧ (rexec tm pre s).timerActive = true ∧
      (rexec tm pre s).killArmed = false ∧ (rexec tm pre s).termSent = false ∧
      (rexec tm pre s).killSent = false := by
  induction pre with
  | nil => intro s h1 h2 h3 h4 h5; exact ⟨h1, h2, h3, h4, h5⟩
  | cons e rest ih =>
    intro s h1 h2 h3 h4 h5
    have he : quietEv e = true := hq e (List.mem_cons_self _ _)
    have hrest : ∀ x ∈ rest, quietEv x = true := fun x hx => hq x (List.mem_cons_of_mem _ hx)
    cases e with
    | dataEv d =>
      exact ih hrest _ (by simpa [rstep] using h1) (by simpa [rstep] using h2)
        (by simpa [rstep] using h3) (by simpa [rstep] using h4) (by simpa [rstep] using h5)
    | killFire =>
      exact ih hrest _ (by simpa [rstep, h3] using h1) (by simpa [rstep, h3] using h2)
        (by simp [rstep, h3]) (by simpa [rstep, h3] using h4)
        (by simpa [rstep, h3] using h5)
    | timerFire => simp [quietEv] at he
    | closeEv c => simp [quietEv] at he
    | errorEv m => simp [quietEv] at he

theorem rexec_kill_pending (tm : Nat) (qs : List REv)
    (hq : ∀ e ∈ qs, notCloseErr e = true) :
    ∀ s : RunSt, s.timerActive = false → (s.killArmed = true ∨ s.killSent = true) →
      (rexec tm qs s).timerActive = false ∧
      ((rexec tm qs s).killArmed = true ∨ (rexec tm qs s).killSent = true) := by
  induction qs with
  | nil => intro s h1 h2; exact ⟨h1, h2⟩
  | cons e rest ih =>
    intro s h1 h2
    have he : notCloseErr e = true := hq e (List.mem_cons_self _ _)
    have hrest : ∀ x ∈ rest, notCloseErr x = true := fun x hx => hq x (List.mem_cons_of_mem _ hx)
    cases e with
    | dataEv d =>
      exact ih hrest _ (by simpa [rstep] using h1) (by simpa [rstep] using h2)
    | timerFire =>
      exact ih hrest _ (by simp [rstep, h1]) (by simpa [rstep, h1] using h2)
    | killFire =>
      rcases h2 with h2 | h2
      · exact ih hrest _ (by simpa [rstep, h2] using h1) (by simp [rstep, h2])
      · by_cases hk : s.killArmed
        · exact ih hrest _ (by simpa [rstep, hk] using h1) (by simp [rstep, hk])
        · exact ih hrest _ (by simpa [rstep, hk] using h1) (by simp [rstep, hk, h2])
    | closeEv c => simp [notCloseErr] at he
    | errorEv m => simp [notCloseErr] at he

theorem rstep_killFire_sent (tm : Nat) (s : RunSt)
    (h : s.killArmed = true ∨ s.killSent = true) :
    (rstep tm s .killFire).killSent = true := by
  rcases h with h | h
  · simp [rstep, h]
  · by_cases hk : s.killArmed = true
    · simp [rstep, hk]
    · simp [rstep, hk, h]

/-- Claim C8: if the main timeout fires while the command is still running,
the caller's promise resolves to the sentinel `{ code: 124 }` with the
timeout marker in its output, SIGTERM has been sent, and if the 2-second
grace timer later fires before the child closes, SIGKILL is sent as well. -/
theorem C8_timeout :
    ∀ (tm : Nat) (pre post : List REv), (∀ e ∈ pre, quietEv e = true) →
      (∃ o, (rexec tm (pre ++ .timerFire :: post) runInit).res = some ⟨124, o⟩ ∧
        containsSub (timeoutMarker tm) o = true) ∧
      (rexec tm (pre ++ .timerFire :: post) runInit).termSent = true ∧
      (∀ qs ks, post = qs ++ .killFire :: ks → (∀ e ∈ qs, notCloseErr e = true) →
        (rexec tm (pre ++ .timerFire :: post) runInit).killSent = true) := by
  intro tm pre post hq
  obtain ⟨hres, htim, hkill, hterm, hksent⟩ :=
    rexec_quiet tm pre hq runInit rfl rfl rfl rfl rfl
  have hsplit : rexec tm (pre ++ .timerFire :: post) runInit =
      rexec tm post (rstep tm (rexec tm pre runInit) .timerFire) := by
    rw [rexec_append]
    rfl
  have h2res : (rstep tm (rexec tm pre runInit) .timerFire).res =
      some ⟨124, (rexec tm pre runInit).out ++ timeoutMarker tm⟩ := by
    simp [rstep, htim, hres]
  have h2term : (rstep tm (rexec tm pre runInit) .timerFire).termSent = true := by
    simp [rstep, htim]
  have h2karm : (rstep tm (rexec tm pre runInit) .timerFire).killArmed = true := by
    simp [rstep, htim]
  have h2tim : (rstep tm (rexec tm pre runInit) .timerFire).timerActive = false := by
    simp [rstep, htim]
  refine ⟨⟨(rexec tm pre runInit).out ++ timeoutMarker tm, ?_, containsSub_append_self _ _⟩,
    ?_, ?_⟩
  · rw [hsplit]
    exact rexec_res_frozen tm post _ _ h2res
  · rw [hsplit]
    exact rexec_termSent_mono tm post _ h2term
  · intro qs ks hpost hqs
    rw [hsplit, hpost, rexec_append]
    have hu := rexec_kill_pending tm qs hqs _ h2tim (Or.inl h2karm)
    exact rexec_killSent_mono tm ks _ (rstep_killFire_sent tm _ hu.2)

theorem C8_timeout_witness :
    (∃ o, (rexec 120000 ([.dataEv (str "x")] ++ .timerFire :: [.killFire, .closeEv 137])
        runInit).res = some ⟨124, o⟩ ∧ containsSub (timeoutMarker 120000) o = true) ∧
    (rexec 120000 ([.dataEv (str "x")] ++ .timerFire :: [.killFire, .closeEv 137])
      runInit).termSent = true ∧
    (rexec 120000 ([.dataEv (str "x")] ++ .timerFire :: [.killFire, .closeEv 137])
      runInit).killSent = true := by
  obtain ⟨h1, h2, h3⟩ :=
    C8_timeout 120000 [.dataEv (str "x")] [.killFire, .closeEv 137] (by decide)
  exact ⟨h1, h2, h3 [] [.closeEv 137] rfl (by decide)⟩

/-! ### Single-flight gateway start (claim C1) -/

theorem gexec_append (l1 l2 : List GEv) (s : GwSys) :
    gexec (l1 ++ l2) s = gexec l2 (gexec l1 s) := by
  unfold gexec
  rw [List.foldl_append]

theorem first_entry_state (n i0 : Nat) (h : i0 < n) :
    gstep (gwInit n) (.entry i0) =
      ⟨true, some 0, some 0, 1, [], (List.replicate n GPhase.ready).set i0 (.waiting 0)⟩ := by
  have hg : (List.replicate n GPhase.ready)[i0]? = some GPhase.ready := by
    simp [List.getElem?_replicate, h]
  simp [gstep, gwInit, hg]

theorem first_entry_AInv (n i0 : Nat) (h : i0 < n) :
    AInv (gstep (gwInit n) (.entry i0)) := by
  rw [first_entry_state n i0 h]
  refine ⟨rfl, rfl, rfl, rfl, rfl, ?_⟩
  intro p hp
  rcases List.mem_or_eq_of_mem_set hp with hp | hp
  · exact Or.inl (List.eq_of_mem_replicate hp)
  · exact Or.inr (Or.inl hp)

theorem entry_preserves_AInv (s : GwSys) (i : Nat) (h : AInv s) :
    AInv (gstep s (.entry i)) := by
  obtain ⟨hc, hp, hst, hat, hres, hph⟩ := h
  cases hgi : s.callers[i]? with
  | none =>
    simp only [gstep, hgi]
    exact ⟨hc, hp, hst, hat, hres, hph⟩
  | some p =>
    have hpm := hph p (List.get?_mem ((List.get?_eq_getElem? s.callers i).trans hgi))
    rcases hpm with hpr | hpw | hpf
    · subst hpr
      have hstep : gstep s (.entry i) =
          { s with callers := s.callers.set i (.finished .okImmediate) } := by
        simp [gstep, hgi, hc, hp]
      rw [hstep]
      refine ⟨hc, hp, hst, hat, hres, ?_⟩
      intro q hq
      rcases List.mem_or_eq_of_mem_set hq with hq | hq
      · exact hph q hq
      · exact Or.inr (Or.inr hq)
    · subst hpw
      simp only [gstep, hgi]
      exact ⟨hc, hp, hst, hat, hres, hph⟩
    · subst hpf
      simp only [gstep, hgi]
      exact ⟨hc, hp, hst, hat, hres, hph⟩

theorem entries_preserve_AInv (es : List Nat) (s : GwSys) (h : AInv s) :
    AInv (gexec (es.map .entry) s) := by
  induction es generalizing s with
  | nil => exact h
  | cons i rest ih =>
    exact ih _ (entry_preserves_AInv s i h)


theorem AInv_to_BInv (s : GwSys) (h : AInv s) : BInv s := by
  obtain ⟨hc, hp, hst, hat, hres, hph⟩ := h
  refine ⟨hat, Or.inl ⟨hst, hres⟩, ?_⟩
  intro p hp2
  rcases hph p hp2 with h | h | h
  · exact Or.inl h
  · exact Or.inr (Or.inl h)
  · exact Or.inr (Or.inr (Or.inl h))

theorem nonentry_preserves_BInv (s : GwSys) (e : GEv) (he : isEntryEv e = false)
    (h : BInv s) : BInv (gstep s e) := by
  obtain ⟨hat, hbst, hph⟩ := h
  cases e with
  | entry i => simp [isEntryEv] at he
  | resolveAttempt a b =>
    rcases hbst with ⟨hs0, hres0⟩ | ⟨hsn, b0, hres⟩
    · by_cases hsa : s.starting = some a
      · have ha : a = 0 := by
          rw [hs0] at hsa
          injection hsa with hx
          exact hx.symm
        subst ha
        have hstep : gstep s (.resolveAttempt 0 b) =
            { s with starting := none, resolved := (0, b) :: s.resolved } := by
          simp [gstep, hsa]
        rw [hstep]
        refine ⟨hat, Or.inr ⟨rfl, b, by rw [hres0]⟩, ?_⟩
        intro q hq
        rcases hph q hq with h | h | h | ⟨b', _, hres'⟩
        · exact Or.inl h
        · exact Or.inr (Or.inl h)
        · exact Or.inr (Or.inr (Or.inl h))
        · rw [hres0] at hres'
          exact absurd hres' (by simp)
      · have hstep : gstep s (.resolveAttempt a b) = s := by
          simp [gstep, hsa]
        rw [hstep]
        exact ⟨hat, Or.inl ⟨hs0, hres0⟩, hph⟩
    · have hsa : ¬(s.starting = some a) := by
        rw [hsn]
        simp
      have hstep : gstep s (.resolveAttempt a b) = s := by
        simp [gstep, hsa]
      rw [hstep]
      exact ⟨hat, Or.inr ⟨hsn, b0, hres⟩, hph⟩
  | wake i =>
    cases hgi : s.callers[i]? with
    | none =>
      simp only [gstep, hgi]
      exact ⟨hat, hbst, hph⟩
    | some p =>
      have hpm := hph p (List.get?_mem ((List.get?_eq_getElem? s.callers i).trans hgi))
      cases p with
      | ready =>
        simp only [gstep, hgi]
        exact ⟨hat, hbst, hph⟩
      | finished o =>
        simp only [gstep, hgi]
        exact ⟨hat, hbst, hph⟩
      | waiting a =>
        have ha : a = 0 := by
          rcases hpm with h | h | h | ⟨b', h, _⟩
          · exact absurd h (by simp)
          · injection h with hx
          · exact absurd h (by simp)
          · exact absurd h (by simp)
        subst ha
        rcases hbst with ⟨hs0, hres0⟩ | ⟨hsn, b0, hres⟩
        · have hstep : gstep s (.wake i) = s := by
            simp [gstep, hgi, hres0, lookupRes]
          rw [hstep]
          exact ⟨hat, Or.inl ⟨hs0, hres0⟩, hph⟩
        · have hlook : lookupRes 0 s.resolved = some b0 := by
            rw [hres]
            simp [lookupRes]
          have hstep : gstep s (.wake i) =
              { s with callers := s.callers.set i (.finished (.fromAttempt 0 b0)) } := by
            simp [gstep, hgi, hlook]
          rw [hstep]
          refine ⟨hat, Or.inr ⟨hsn, b0, hres⟩, ?_⟩
          intro q hq
          rcases List.mem_or_eq_of_mem_set hq with hq | hq
          · exact hph q hq
          · subst hq
            exact Or.inr (Or.inr (Or.inr ⟨b0, rfl, hres⟩))
  | procExit =>
    exact ⟨hat, hbst, hph⟩

theorem nonentries_preserve_BInv (rs : List GEv) (s : GwSys)
    (hrs : ∀ e ∈ rs, isEntryEv e = false) (h : BInv s) : BInv (gexec rs s) := by
  induction rs generalizing s with
  | nil => exact h
  | cons e rest ih =>
    exact ih _ (fun x hx => hrs x (List.mem_cons_of_mem _ hx))
      (nonentry_preserves_BInv s e (hrs e (List.mem_cons_self _ _)) h)


/-- Claim C1 (amended): for every concurrent burst of `ensureGatewayRunning()`
callers from the stopped, configured state (all entry blocks run before any
attempt settles or the process exits), exactly one backend process is
spawned; every finished caller either took the live-process fast path
(`{ ok: true }`) or observed the recorded outcome of the single attempt 0,
and all callers observing an attempt observe the same attempt and the same
outcome.  (Fast-path callers can report success even when attempt 0 later
fails: see the counterexample.) -/
theorem C1_single_flight :
    ∀ (n i0 : Nat) (rest : List Nat) (rs : List GEv),
      2 ≤ n → i0 < n → (∀ e ∈ rs, isEntryEv e = false) →
      (gexec (((i0 :: rest).map GEv.entry) ++ rs) (gwInit n)).attempts = 1 ∧
      (∀ (i : Nat) (o : GOutcome), (gexec (((i0 :: rest).map GEv.entry) ++ rs) (gwInit n)).callers[i]?
          = some (GPhase.finished o) →
        o = GOutcome.okImmediate ∨ ∃ b, o = GOutcome.fromAttempt 0 b) ∧
      (∀ (i a : Nat) (b : Bool), (gexec (((i0 :: rest).map GEv.entry) ++ rs) (gwInit n)).callers[i]?
          = some (GPhase.finished (GOutcome.fromAttempt a b)) →
        a = 0 ∧ lookupRes 0 (gexec (((i0 :: rest).map GEv.entry) ++ rs) (gwInit n)).resolved
          = some b) ∧
      (∀ (i j a : Nat) (b : Bool) (a' : Nat) (b' : Bool),
        (gexec (((i0 :: rest).map GEv.entry) ++ rs) (gwInit n)).callers[i]?
          = some (GPhase.finished (GOutcome.fromAttempt a b)) →
        (gexec (((i0 :: rest).map GEv.entry) ++ rs) (gwInit n)).callers[j]?
          = some (GPhase.finished (GOutcome.fromAttempt a' b')) →
        a = a' ∧ b = b') := by
  intro n i0 rest rs h2 hi0 hrs
  have hA : AInv (gexec ((i0 :: rest).map GEv.entry) (gwInit n)) :=
    entries_preserve_AInv rest _ (first_entry_AInv n i0 hi0)
  rw [gexec_append]
  obtain ⟨hat, hbst, hph⟩ :=
    nonentries_preserve_BInv rs _ hrs (AInv_to_BInv _ hA)
  have hfin : ∀ (i a : Nat) (b : Bool),
      (gexec rs (gexec ((i0 :: rest).map GEv.entry) (gwInit n))).callers[i]?
        = some (GPhase.finished (GOutcome.fromAttempt a b)) →
      a = 0 ∧ lookupRes 0 (gexec rs (gexec ((i0 :: rest).map GEv.entry) (gwInit n))).resolved
        = some b := by
    intro i a b hio
    have hm := hph _ (List.get?_mem ((List.get?_eq_getElem? _ i).trans hio))
    rcases hm with h | h | h | ⟨b', heq, hres⟩
    · exact absurd h (by simp)
    · exact absurd h (by simp)
    · exact absurd h (by simp)
    · have hab : a = 0 ∧ b = b' := by
        injection heq with hx
        injection hx with h1 h2
        exact ⟨h1, h2⟩
      refine ⟨hab.1, ?_⟩
      rw [hres, hab.2]
      simp [lookupRes]
  refine ⟨hat, ?_, hfin, ?_⟩
  · intro i o hio
    have hm := hph _ (List.get?_mem ((List.get?_eq_getElem? _ i).trans hio))
    rcases hm with h | h | h | ⟨b', heq, hres⟩
    · exact absurd h (by simp)
    · exact absurd h (by simp)
    · injection h with hx
      exact Or.inl hx
    · injection heq with hx
      exact Or.inr ⟨b', hx⟩
  · intro i j a b a' b' hi hj
    obtain ⟨ha, hb⟩ := hfin i a b hi
    obtain ⟨ha', hb'⟩ := hfin j a' b' hj
    refine ⟨ha.trans ha'.symm, ?_⟩
    rw [hb] at hb'
    injection hb' with hx

theorem C1_single_flight_witness :
    (gexec (((0 :: [1]).map GEv.entry) ++ [.resolveAttempt 0 true, .wake 0])
      (gwInit 2)).attempts = 1 ∧
    (gexec (((0 :: [1]).map GEv.entry) ++ [.resolveAttempt 0 true, .wake 0])
      (gwInit 2)).callers[0]? = some (GPhase.finished (GOutcome.fromAttempt 0 true)) := by
  obtain ⟨h1, _, _, _⟩ :=
    C1_single_flight 2 0 [1] [.resolveAttempt 0 true, .wake 0]
      (by decide) (by decide) (by decide)
  exact ⟨h1, by decide⟩

/-- Claim C1 counterexample: with two concurrent callers from the stopped,
configured state, caller 0 spawns and awaits attempt 0, caller 1 hits the
`gatewayProc` fast path and resolves `{ ok: true }` immediately; when the
attempt then fails readiness, caller 0 observes a failure while caller 1
already observed success — the callers do not all receive the outcome of the
single in-flight attempt. -/
theorem C1_cex :
    (gexec [.entry 0, .entry 1, .resolveAttempt 0 false, .wake 0, .wake 1]
      (gwInit 2)).attempts = 1 ∧
    (gexec [.entry 0, .entry 1, .resolveAttempt 0 false, .wake 0, .wake 1]
      (gwInit 2)).callers
      = [.finished (.fromAttempt 0 false), .finished .okImmediate] ∧
    successObs (.fromAttempt 0 false) = false ∧
    successObs .okImmediate = true := by
  decide

end Wrapper
